import Mathlib

/-!
Verification development for the kube-booster warmup controller.

Shallow embedding of:
- pkg/webhook constants (annotation keys, readiness-gate / condition names)
- pkg/warmup ParseConfig (config.go), Result.BuildMessage (result.go),
  VegetaExecutor.Execute (executor.go)
- pkg/controller PodReconciler.Reconcile, isConditionTrue,
  areContainersReady, setConditionTrue (pod_controller.go)

Go machine integers are modelled as Int/Nat with the explicit 2^63 cutoff
checks the Go standard library performs; Go float64 arithmetic inside
strconv/fmt/vegeta is modelled exactly over ℚ (the divisions involved are
exact at every input used here).  Go `map[string]string` is modelled as an
association list; a nil map is `Option.none`.  Effects (the Kubernetes API
client, the vegeta attack goroutine, context cancellation) are modelled by
explicit oracle inputs and by recording attempted status writes in the
reconcile outcome.
-/

/-! ## Constants from pkg/webhook/constants.go -/

def AnnotationWarmupEnabled : String := "kube-booster.io/warmup"

def AnnotationWarmupEndpoint : String := "kube-booster.io/warmup-endpoint"

def AnnotationWarmupRequests : String := "kube-booster.io/warmup-requests"

def AnnotationWarmupDuration : String := "kube-booster.io/warmup-duration"

def AnnotationWarmupPort : String := "kube-booster.io/warmup-port"

def ReadinessGateName : String := "kube-booster.io/warmup-ready"

def ConditionTypeWarmupReady : String := "kube-booster.io/warmup-ready"

/-! ## Go standard library models -/

/-- Model of Go strconv quoting as used in `%q` (no escaping is needed for
the inputs appearing in this development). -/
def goQuote (s : String) : String := "\"" ++ s ++ "\""

/-- Model of Go `strconv.Atoi` (= `ParseInt(s, 10, 64)`): optional sign,
one or more ASCII digits, value within the int64 range. -/
def goAtoi (s : String) : Except String Int :=
  let cs := s.data
  let signSplit : Bool × List Char :=
    match cs with
    | '-' :: rest => (true, rest)
    | '+' :: rest => (false, rest)
    | l => (false, l)
  let neg := signSplit.1
  let digits := signSplit.2
  if digits.isEmpty ∨ ¬ digits.all Char.isDigit then
    .error ("strconv.Atoi: parsing " ++ goQuote s ++ ": invalid syntax")
  else
    let n : Nat := digits.foldl (fun a c => a * 10 + (c.toNat - 48)) 0
    let v : Int := if neg then -(n : Int) else (n : Int)
    if v < -(2 ^ 63) ∨ v > 2 ^ 63 - 1 then
      .error ("strconv.Atoi: parsing " ++ goQuote s ++ ": value out of range")
    else .ok v

/-- Go `time` unit map used by `ParseDuration` (nanoseconds per unit). -/
def durUnitLookup (u : String) : Option Nat :=
  if u = "ns" then some 1
  else if u = "us" then some 1000
  else if u = "µs" then some 1000
  else if u = "μs" then some 1000
  else if u = "ms" then some 1000000
  else if u = "s" then some 1000000000
  else if u = "m" then some 60000000000
  else if u = "h" then some 3600000000000
  else none

/-- Go `time.leadingInt`: consume leading digits with the uint64 overflow
cutoff; `none` models `errLeadingInt`. -/
def leadingIntGo : List Char → Nat → Option (Nat × List Char)
  | [], x => some (x, [])
  | c :: rest, x =>
    if c.isDigit then
      if x > 2 ^ 63 / 10 then none
      else
        let y := x * 10 + (c.toNat - 48)
        if y > 2 ^ 63 then none
        else leadingIntGo rest y
    else some (x, c :: rest)

/-- Go `time.leadingFraction`: consume fraction digits, saturating instead
of overflowing; returns (digits value, scale, rest). -/
def leadingFractionGo : List Char → Nat → Nat → Bool → Nat × Nat × List Char
  | [], x, scale, _ => (x, scale, [])
  | c :: rest, x, scale, overflow =>
    if c.isDigit then
      if overflow then leadingFractionGo rest x scale true
      else if x > (2 ^ 63 - 1) / 10 then leadingFractionGo rest x scale true
      else
        let y := x * 10 + (c.toNat - 48)
        if y > 2 ^ 63 then leadingFractionGo rest x scale true
        else leadingFractionGo rest y (scale * 10) false
    else (x, scale, c :: rest)

/-- Model of Go `fmt` `%.1f` applied to the float64 ratio
`completed/total*100`: the exact decimal value in tenths, rounded to
nearest with ties to even, over plain integer arithmetic (`num/total`
tenths with remainder; exact at every input used here). -/
def formatRate1 (completed total : Int) : String :=
  let num := completed * 1000
  let fl := Int.fdiv num total
  let rem := num - fl * total
  let n : Int :=
    if 2 * rem > total then fl + 1
    else if 2 * rem < total then fl
    else if fl % 2 = 0 then fl else fl + 1
  let sign := if n < 0 then "-" else ""
  let m := n.natAbs
  sign ++ toString (m / 10) ++ "." ++ toString (m % 10)

/-- Go `time.fmtFrac`: print up to `prec` fraction digits of `v` (least
significant first, prepending), omitting trailing zeros, with a leading
period when any digit is printed; also returns `v / 10 ^ prec`. -/
def fmtFracLoop : Nat → Nat → Bool → String → String × Nat
  | v, 0, print, acc => ((if print then "." ++ acc else acc), v)
  | v, prec + 1, print, acc =>
    let digit := v % 10
    let doPrint := print || decide (digit ≠ 0)
    let acc2 := if doPrint then String.singleton (Char.ofNat (48 + digit)) ++ acc else acc
    fmtFracLoop (v / 10) prec doPrint acc2

/-- Model of Go `time.Duration.String` (`%v` of a duration), `d` in
nanoseconds. -/
def formatGoDuration (d : Int) : String :=
  let u := d.natAbs
  let core :=
    if u < 1000000000 then
      if u = 0 then "0s"
      else if u < 1000 then toString u ++ "ns"
      else if u < 1000000 then
        let fr := fmtFracLoop u 3 false ("")
        toString fr.2 ++ fr.1 ++ "µs"
      else
        let fr := fmtFracLoop u 6 false ("")
        toString fr.2 ++ fr.1 ++ "ms"
    else
      let fr := fmtFracLoop u 9 false ("")
      let secs := fr.2
      let base := toString (secs % 60) ++ fr.1 ++ "s"
      let mins := secs / 60
      if mins = 0 then base
      else
        let base2 := toString (mins % 60) ++ "m" ++ base
        let hrs := mins / 60
        if hrs = 0 then base2 else toString hrs ++ "h" ++ base2
  if d < 0 then "-" ++ core else core

/-- Model of Go `time.ParseDuration` main loop over the remaining input;
`d` accumulates nanoseconds.  The fraction contribution
`uint64(float64(f) * (float64(unit) / scale))` is modelled by exact
rational arithmetic truncated toward zero. -/
def parseDurChunks (orig : String) : Nat → List Char → Nat → Except String Nat
  | 0, _, _ => .error ("time: invalid duration " ++ goQuote orig)
  | _, [], d => .ok d
  | fuel + 1, c :: rest, d =>
    if ¬ (c = '.' ∨ c.isDigit) then .error ("time: invalid duration " ++ goQuote orig)
    else
      match leadingIntGo (c :: rest) 0 with
      | none => .error ("time: invalid duration " ++ goQuote orig)
      | some (v, s1) =>
        let pre := decide (s1.length ≠ (c :: rest).length)
        let fracStep : Nat × Nat × List Char × Bool :=
          match s1 with
          | '.' :: s1tail =>
            let fr := leadingFractionGo s1tail 0 1 false
            (fr.1, fr.2.1, fr.2.2, decide (fr.2.2.length ≠ s1tail.length))
          | _ => (0, 1, s1, false)
        let f := fracStep.1
        let scale := fracStep.2.1
        let s2 := fracStep.2.2.1
        let post := fracStep.2.2.2
        if pre = false ∧ post = false then .error ("time: invalid duration " ++ goQuote orig)
        else
          let unitChars := s2.takeWhile (fun ch => ¬ (ch = '.' ∨ ch.isDigit))
          let s3 := s2.drop unitChars.length
          if unitChars.length = 0 then .error ("time: missing unit in duration " ++ goQuote orig)
          else
            match durUnitLookup (String.mk unitChars) with
            | none =>
              .error ("time: unknown unit " ++ goQuote (String.mk unitChars) ++ " in duration " ++ goQuote orig)
            | some unit =>
              if v > 2 ^ 63 / unit then .error ("time: invalid duration " ++ goQuote orig)
              else
                let v1 := v * unit
                let v2 := if f > 0 then v1 + f * unit / scale else v1
                if f > 0 ∧ v2 > 2 ^ 63 then .error ("time: invalid duration " ++ goQuote orig)
                else
                  let d2 := d + v2
                  if d2 > 2 ^ 63 then .error ("time: invalid duration " ++ goQuote orig)
                  else parseDurChunks orig fuel s3 d2

/-- Model of Go `time.ParseDuration`; result in nanoseconds. -/
def goParseDuration (s : String) : Except String Int :=
  let cs := s.data
  let signSplit : Bool × List Char :=
    match cs with
    | '-' :: rest => (true, rest)
    | '+' :: rest => (false, rest)
    | l => (false, l)
  let neg := signSplit.1
  let body := signSplit.2
  if body = ['0'] then .ok 0
  else if body = [] then .error ("time: invalid duration " ++ goQuote s)
  else
    match parseDurChunks s (body.length + 1) body 0 with
    | .error e => .error e
    | .ok d =>
      if neg then .ok (-(d : Int))
      else if d > 2 ^ 63 - 1 then .error ("time: invalid duration " ++ goQuote s)
      else .ok (d : Int)

/-! ## Pod data model (the corev1 fields the program reads) -/

structure ContainerPort where
  containerPort : Int
deriving DecidableEq, Repr

structure Container where
  name : String
  ports : List ContainerPort
deriving DecidableEq, Repr

structure PodCondition where
  type : String
  status : String
  lastTransitionTime : Nat
  reason : String
  message : String
deriving DecidableEq, Repr

structure ContainerStatus where
  name : String
  ready : Bool
deriving DecidableEq, Repr

structure PodSpec where
  containers : List Container
  readinessGates : List String
deriving DecidableEq, Repr

structure PodStatus where
  phase : String
  podIP : String
  conditions : List PodCondition
  containerStatuses : List ContainerStatus
deriving DecidableEq, Repr

structure Pod where
  name : String
  nspace : String
  annotations : Option (List (String × String))
  spec : PodSpec
  status : PodStatus
deriving DecidableEq, Repr

/-! ## pkg/warmup config.go -/

def DefaultRequestCount : Int := 3

def DefaultDuration : Int := 30000000000

def DefaultEndpointPath : String := "/"

structure Config where
  endpoint : String := DefaultEndpointPath
  requestCount : Int := DefaultRequestCount
  duration : Int := DefaultDuration
  podIP : String := ""
  podName : String := ""
  podNamespace : String := ""
  port : Int := 0
deriving DecidableEq, Repr

/-- Go map lookup `pod.Annotations[key]` guarded by `annotations != nil`. -/
def lookupAnn (pod : Pod) (key : String) : Option String :=
  match pod.annotations with
  | none => none
  | some l => l.lookup key

/-- Go early-return-with-config sequencing: ParseConfig returns the
partially built config alongside any error. -/
def cfgBind (r : Config × Option String) (f : Config → Config × Option String) :
    Config × Option String :=
  match r with
  | (c, some e) => (c, some e)
  | (c, none) => f c

def applyEndpointAnn (pod : Pod) (c : Config) : Config :=
  match lookupAnn pod AnnotationWarmupEndpoint with
  | some s => if s ≠ "" then { c with endpoint := s } else c
  | none => c

def parseRequestsAnn (pod : Pod) (c : Config) : Config × Option String :=
  match lookupAnn pod AnnotationWarmupRequests with
  | some s =>
    if s ≠ "" then
      match goAtoi s with
      | .error e => (c, some ("invalid warmup-requests value " ++ goQuote s ++ ": " ++ e))
      | .ok n =>
        if n < 1 then (c, some ("warmup-requests must be at least 1, got " ++ toString n))
        else ({ c with requestCount := n }, none)
    else (c, none)
  | none => (c, none)

def parseDurationAnn (pod : Pod) (c : Config) : Config × Option String :=
  match lookupAnn pod AnnotationWarmupDuration with
  | some s =>
    if s ≠ "" then
      match goParseDuration s with
      | .error e => (c, some ("invalid warmup-duration value " ++ goQuote s ++ ": " ++ e))
      | .ok dur =>
        if dur < 1000000000 then
          (c, some ("warmup-duration must be at least 1s, got " ++ formatGoDuration dur))
        else ({ c with duration := dur }, none)
    else (c, none)
  | none => (c, none)

def parsePortAnn (c : Config) (s : String) : Config × Option String :=
  match goAtoi s with
  | .error e => (c, some ("invalid warmup-port value " ++ goQuote s ++ ": " ++ e))
  | .ok n =>
    if n < 1 ∨ n > 65535 then
      (c, some ("warmup-port must be between 1 and 65535, got " ++ toString n))
    else ({ c with port := n }, none)

def noPortsFoundMsg : String :=
  "cannot determine warmup port: no container ports found, please specify using annotation "
    ++ AnnotationWarmupPort

def multipleContainersMsg : String :=
  "pod has multiple containers, please specify warmup port using annotation "
    ++ AnnotationWarmupPort

def multiplePortsMsg (containerName : String) : String :=
  "container " ++ goQuote containerName
    ++ " has multiple ports, please specify warmup port using annotation "
    ++ AnnotationWarmupPort

/-- Auto-detection tail of ParseConfig: use the single declared port of the
single container, otherwise fail distinguishing the three cases. -/
def autoDetectPort (pod : Pod) (c : Config) : Config × Option String :=
  match pod.spec.containers with
  | [container] =>
    match container.ports with
    | [p] => ({ c with port := p.containerPort }, none)
    | [] => (c, some noPortsFoundMsg)
    | _ => (c, some (multiplePortsMsg container.name))
  | [] => (c, some noPortsFoundMsg)
  | _ => (c, some multipleContainersMsg)

/-- pkg/warmup ParseConfig (the current config.go, with the
warmup-port annotation and warmup-duration). -/
def ParseConfig (p : Option Pod) : Config × Option String :=
  match p with
  | none => ({}, some ("pod is nil, cannot determine warmup port"))
  | some pod =>
    let c0 := applyEndpointAnn pod {}
    cfgBind (parseRequestsAnn pod c0) (fun c1 =>
      cfgBind (parseDurationAnn pod c1) (fun c2 =>
        match lookupAnn pod AnnotationWarmupPort with
        | some s => if s ≠ "" then parsePortAnn c2 s else autoDetectPort pod c2
        | none => autoDetectPort pod c2))

/-! ## pkg/warmup result.go -/

structure Result where
  success : Bool := false
  requestsCompleted : Int := 0
  requestsFailed : Int := 0
  totalDuration : Int := 0
  latencyP50 : Int := 0
  latencyP99 : Int := 0
  error : Option String := none
  message : String := ""
deriving DecidableEq, Repr

/-- pkg/warmup Result.BuildMessage.  The success-rate float64 computation
is modelled exactly over ℚ. -/
def BuildMessage (r : Result) : String :=
  match r.error with
  | some e => "warmup failed: " ++ e
  | none =>
    if r.requestsCompleted = 0 ∧ r.requestsFailed = 0 then
      "warmup skipped: no requests executed"
    else
      let total := r.requestsCompleted + r.requestsFailed
      if r.success then
        "warmup completed: " ++ toString r.requestsCompleted ++ "/" ++ toString total
          ++ " requests succeeded (" ++ formatRate1 r.requestsCompleted total ++ "%), P50="
          ++ formatGoDuration r.latencyP50 ++ ", P99=" ++ formatGoDuration r.latencyP99
      else
        "warmup completed with failures: " ++ toString r.requestsCompleted ++ "/"
          ++ toString total ++ " requests succeeded (" ++ formatRate1 r.requestsCompleted total ++ "%)"

/-! ## pkg/warmup executor.go -/

/-- Outcome of the concurrent vegeta attack awaited by Execute: either the
supplied context fired first (cancellation / deadline, with the text of
`ctx.Err()`), or the attack channel closed normally having collected the
given per-request HTTP status codes; the percentile and wall-clock figures
vegeta derives are carried as data. -/
inductive RunOutcome where
  | cancelled (cause : String)
  | completed (codes : List Nat) (p50 p99 totalDur : Int)
deriving DecidableEq, Repr

/-- vegeta counts a request as a success when its status code is in
[200, 400). -/
def isVegetaSuccess (code : Nat) : Bool := decide (200 ≤ code ∧ code < 400)

/-- vegeta `Metrics.Success`: fraction of successful requests.  Go's
0/0 float division yields NaN, and every comparison and integer
conversion the executor applies to it behaves like 0 here; ℚ division by
zero is 0, giving the same observable results. -/
def vegetaSuccessFrac (codes : List Nat) : ℚ :=
  ((codes.countP isVegetaSuccess : Int) : ℚ) / ((codes.length : Int) : ℚ)

def errNoPodIPText : String := "pod IP not set"

/-- pkg/warmup VegetaExecutor.Execute, with the attack's outcome supplied
as an oracle.  `int(float64(totalRequests) * metrics.Success)` is the
rational product truncated toward zero (exact: the product equals the
success count). -/
def ExecuteModel (config : Config) (run : RunOutcome) : Result :=
  if config.podIP = "" then
    { error := some errNoPodIPText, message := "cannot execute warmup: pod IP not set" }
  else
    match run with
    | .cancelled cause => { error := some cause, message := "warmup cancelled" }
    | .completed codes p50 p99 dur =>
      let totalRequests : Int := codes.length
      let frac := vegetaSuccessFrac codes
      let successfulRequests : Int := ⌊(totalRequests : ℚ) * frac⌋
      let base : Result :=
        { success := decide (0 < frac)
          requestsCompleted := successfulRequests
          requestsFailed := totalRequests - successfulRequests
          totalDuration := dur
          latencyP50 := p50
          latencyP99 := p99 }
      { base with message := BuildMessage base }

/-! ## pkg/controller pod_controller.go -/

/-- corev1.ContainersReady. -/
def ContainersReadyType : String := "ContainersReady"

/-- isConditionTrue: the loop returns at the first condition whose type
matches, comparing its status against ConditionTrue. -/
def isConditionTrue (pod : Pod) (conditionType : String) : Bool :=
  match pod.status.conditions.find? (fun c => c.type == conditionType) with
  | some c => c.status == "True"
  | none => false

/-- areContainersReady: every recorded container status is ready and there
is at least one of them. -/
def areContainersReady (pod : Pod) : Bool :=
  pod.status.containerStatuses.all (fun cs => cs.ready)
    && decide (0 < pod.status.containerStatuses.length)

def hasReadinessGate (pod : Pod) : Bool :=
  pod.spec.readinessGates.any (fun g => g == ReadinessGateName)

/-- The reason/message mapping inside setConditionTrue. -/
def conditionReasonMessage (result : Option Result) : String × String :=
  match result with
  | none => ("WarmupComplete", "Warmup readiness check passed")
  | some r =>
    if r.success then ("WarmupComplete", r.message)
    else ("WarmupFailedOpen", "Warmup failed but pod marked ready (fail-open): " ++ r.message)

/-- The find-by-type-else-append loop of setConditionTrue over the
condition list: the first entry whose type is ConditionTypeWarmupReady has
its status/transition-time/reason/message overwritten, else a new entry is
appended. -/
def upsertCondition : List PodCondition → String → String → Nat → List PodCondition
  | [], reason, msg, now =>
    [{ type := ConditionTypeWarmupReady, status := "True", lastTransitionTime := now,
       reason := reason, message := msg }]
  | c :: rest, reason, msg, now =>
    if c.type == ConditionTypeWarmupReady then
      { type := c.type, status := "True", lastTransitionTime := now,
        reason := reason, message := msg } :: rest
    else c :: upsertCondition rest reason msg now

/-- setConditionTrue without the final API write: the status payload it
builds and hands to Status().Update. -/
def setConditionTrue (pod : Pod) (result : Option Result) (now : Nat) : Pod :=
  let rm := conditionReasonMessage result
  { pod with status :=
      { pod.status with conditions := upsertCondition pod.status.conditions rm.1 rm.2 now } }

/-- Result of the initial Get call, as an oracle. -/
inductive GetResult where
  | notFound
  | getError (e : String)
  | found (pod : Pod)
deriving DecidableEq, Repr

/-- Per-invocation environment of one Reconcile call: the configured
executor (its Execute as a function of the resolved config, `none` when no
executor is configured), whether the Status().Update call succeeds, the
error text it returns when it fails, and the metav1.Now() timestamp. -/
structure StepInput where
  executor : Option (Config → Result)
  writeOk : Bool
  writeErr : String
  now : Nat

def fiveSecondsNs : Int := 5000000000

/-- Observable outcome of one Reconcile call: the ctrl.Result requeue
delay, the returned error, every status-write payload attempted via
Status().Update, and whether config resolution / executor runs happened. -/
structure ReconcileOutcome where
  requeueAfter : Option Int := none
  err : Option String := none
  writes : List Pod := []
  didParse : Bool := false
  didExecute : Bool := false
deriving DecidableEq, Repr

/-- pkg/controller PodReconciler.Reconcile. -/
def Reconcile (g : GetResult) (inp : StepInput) : ReconcileOutcome :=
  match g with
  | .notFound => {}
  | .getError e => { err := some e }
  | .found pod =>
    if ¬ hasReadinessGate pod then {}
    else if isConditionTrue pod ConditionTypeWarmupReady then {}
    else if pod.status.phase ≠ "Running" then { requeueAfter := some fiveSecondsNs }
    else if ¬ areContainersReady pod then { requeueAfter := some fiveSecondsNs }
    else if ¬ isConditionTrue pod ContainersReadyType then { requeueAfter := some fiveSecondsNs }
    else
      match ParseConfig (some pod) with
      | (_, some e) =>
        let result : Result :=
          { success := false, message := "warmup config error: " ++ e, error := some e }
        let written := setConditionTrue pod (some result) inp.now
        { didParse := true, writes := [written],
          err := if inp.writeOk then none else some inp.writeErr }
      | (cfg, none) =>
        let cfg2 := { cfg with podIP := pod.status.podIP, podName := pod.name,
                               podNamespace := pod.nspace }
        match inp.executor with
        | some ex =>
          let result := ex cfg2
          let written := setConditionTrue pod (some result) inp.now
          { didParse := true, didExecute := true, writes := [written],
            err := if inp.writeOk then none else some inp.writeErr }
        | none =>
          let result : Result :=
            { success := true, message := "warmup skipped: no executor configured" }
          let written := setConditionTrue pod (some result) inp.now
          { didParse := true, writes := [written],
            err := if inp.writeOk then none else some inp.writeErr }

/-- The stored pod after one Reconcile call: a successful Status().Update
replaces the stored status with the written payload; otherwise the store
is unchanged. -/
def reconcileStep (pod : Pod) (inp : StepInput) : Pod × ReconcileOutcome :=
  let o := Reconcile (.found pod) inp
  (if inp.writeOk then (match o.writes with | [w] => w | _ => pod) else pod, o)

/-- Iterated reconciliation of the same identity against the store, with a
possibly different environment on each invocation. -/
def reconcileIter : Nat → Pod → (Nat → StepInput) → Pod
  | 0, pod, _ => pod
  | n + 1, pod, f => reconcileIter n (reconcileStep pod (f n)).1 f

/-! ## Helper lemmas -/

theorem upsertCondition_find (conds : List PodCondition) (r m : String) (now : Nat) :
    (upsertCondition conds r m now).find? (fun c => c.type == ConditionTypeWarmupReady)
      = some { type := ConditionTypeWarmupReady, status := "True", lastTransitionTime := now,
               reason := r, message := m } := by
  induction conds with
  | nil => simp [upsertCondition]
  | cons c rest ih =>
    by_cases h : c.type = ConditionTypeWarmupReady
    · simp [upsertCondition, h]
    · simp [upsertCondition, h, ih]

theorem upsertCondition_countP (conds : List PodCondition) (r m : String) (now : Nat) :
    (upsertCondition conds r m now).countP (fun c => c.type == ConditionTypeWarmupReady)
      = if conds.countP (fun c => c.type == ConditionTypeWarmupReady) = 0 then 1
        else conds.countP (fun c => c.type == ConditionTypeWarmupReady) := by
  induction conds with
  | nil => simp [upsertCondition]
  | cons c rest ih =>
    by_cases h : c.type = ConditionTypeWarmupReady
    · simp [upsertCondition, h, List.countP_cons, ih]
    · simp [upsertCondition, h, List.countP_cons, ih]

theorem isConditionTrue_setConditionTrue (pod : Pod) (result : Option Result) (now : Nat) :
    isConditionTrue (setConditionTrue pod result now) ConditionTypeWarmupReady = true := by
  simp [isConditionTrue, setConditionTrue, upsertCondition_find]


/-- Helper to build a pod without nested-literal noise in the concrete
witness inputs. -/
def mkPod (nm nsp : String) (ann : Option (List (String × String)))
    (containers : List Container) (gates : List String)
    (phase ip : String) (conds : List PodCondition) (statuses : List ContainerStatus) : Pod :=
  { name := nm, nspace := nsp, annotations := ann,
    spec := { containers := containers, readinessGates := gates },
    status := { phase := phase, podIP := ip, conditions := conds,
                containerStatuses := statuses } }

def condEntry (ty st : String) (t : Nat) (r m : String) : PodCondition :=
  { type := ty, status := st, lastTransitionTime := t, reason := r, message := m }

/-! ## Claim C8 -/

/-- C8: once the warmup condition is observed True on entry, that
Reconcile invocation performs zero external writes and no further warmup
work (no config resolution, no engine run), returns no error and no
requeue, and the stored pod is unchanged by any number of further
reconciliations of that identity. -/
theorem condition_true_is_terminal (pod : Pod)
    (hGate : hasReadinessGate pod = true)
    (hTrue : isConditionTrue pod ConditionTypeWarmupReady = true) :
    (∀ inp : StepInput, Reconcile (.found pod) inp = {}) ∧
      ∀ (n : Nat) (f : Nat → StepInput), reconcileIter n pod f = pod := by
  have hstep : ∀ inp : StepInput, Reconcile (.found pod) inp = {} := by
    intro inp
    simp [Reconcile, hGate, hTrue]
  refine ⟨hstep, ?_⟩
  intro n f
  induction n with
  | zero => rfl
  | succ k ih => simp [reconcileIter, reconcileStep, hstep (f k), ih]

def podCondTrueEx : Pod :=
  mkPod ("p") ("d") none [] [ReadinessGateName] ("Pending") ("")
    [condEntry ConditionTypeWarmupReady ("True") 0 ("WarmupComplete") ("done")] []

def stepInputEx : StepInput := { executor := none, writeOk := true, writeErr := "boom", now := 5 }

theorem condition_true_is_terminal_witness :
    Reconcile (.found podCondTrueEx) stepInputEx = {} ∧
      reconcileIter 3 podCondTrueEx (fun _ => stepInputEx) = podCondTrueEx :=
  ⟨(condition_true_is_terminal podCondTrueEx (by decide) (by decide)).1 stepInputEx,
   (condition_true_is_terminal podCondTrueEx (by decide) (by decide)).2 3 (fun _ => stepInputEx)⟩

/-! ## Claim C9 -/

def podDupCondsEx : Pod :=
  mkPod ("p") ("d") none [] [] ("Running") ("")
    [condEntry ConditionTypeWarmupReady ("False") 0 ("") (""),
     condEntry ConditionTypeWarmupReady ("False") 0 ("") ("")] []

/-- C9 counterexample: on a pod status that already holds two entries of
the warmup condition type, applying setConditionTrue twice still leaves
two entries of that type, not exactly one — the upsert loop rewrites only
the first match. -/
theorem upsert_twice_duplicates_counterexample :
    ((setConditionTrue (setConditionTrue podDupCondsEx (some {}) 1) (some {}) 2).status.conditions.countP
      (fun c => c.type == ConditionTypeWarmupReady)) = 2 := by decide

/-- C9 amended: on every pod status holding at most one entry of the
warmup condition type (the invariant the find-by-type-else-append upsert
maintains), applying setConditionTrue twice leaves exactly one entry of
that type, and the stored entry carries the second call's
status/reason/message/transition-time fields. -/
theorem upsert_idempotent_amended (pod : Pod) (res1 res2 : Option Result) (t1 t2 : Nat)
    (h : pod.status.conditions.countP (fun c => c.type == ConditionTypeWarmupReady) ≤ 1) :
    ((setConditionTrue (setConditionTrue pod res1 t1) res2 t2).status.conditions.countP
        (fun c => c.type == ConditionTypeWarmupReady) = 1) ∧
      (setConditionTrue (setConditionTrue pod res1 t1) res2 t2).status.conditions.find?
          (fun c => c.type == ConditionTypeWarmupReady)
        = some { type := ConditionTypeWarmupReady, status := "True", lastTransitionTime := t2,
                 reason := (conditionReasonMessage res2).1,
                 message := (conditionReasonMessage res2).2 } := by
  constructor
  · simp only [setConditionTrue]
    rw [upsertCondition_countP, upsertCondition_countP]
    split_ifs <;> omega
  · simp only [setConditionTrue]
    exact upsertCondition_find _ _ _ _

def podOneCondEx : Pod :=
  mkPod ("p") ("d") none [] [] ("Running") ("")
    [condEntry ContainersReadyType ("True") 0 ("") ("")] []

theorem upsert_idempotent_amended_witness :
    ((setConditionTrue (setConditionTrue podOneCondEx
          (some { success := true, message := "first" })
          1)
        (some { success := true, message := "second" })
        2).status.conditions.countP
        (fun c => c.type == ConditionTypeWarmupReady) = 1) ∧
      (setConditionTrue (setConditionTrue podOneCondEx
          (some { success := true, message := "first" })
          1)
        (some { success := true, message := "second" })
        2).status.conditions.find?
          (fun c => c.type == ConditionTypeWarmupReady)
        = some { type := ConditionTypeWarmupReady, status := "True", lastTransitionTime := 2,
                 reason := (conditionReasonMessage (some { success := true, message := "second" })).1,
                 message := (conditionReasonMessage (some { success := true, message := "second" })).2 } :=
  upsert_idempotent_amended podOneCondEx
    (some { success := true, message := "first" })
    (some { success := true, message := "second" }) 1 2 (by decide)

/-! ## Claim C10 -/

/-- C10: a gated Running pod whose status records zero container statuses
is not treated as vacuously ready: areContainersReady returns false and
Reconcile requeues with the fixed 5s delay, performing no write and no
warmup work. -/
theorem empty_container_statuses_requeue (pod : Pod) (inp : StepInput)
    (hGate : hasReadinessGate pod = true)
    (hNotTrue : isConditionTrue pod ConditionTypeWarmupReady = false)
    (hPhase : pod.status.phase = "Running")
    (hEmpty : pod.status.containerStatuses = []) :
    areContainersReady pod = false ∧
      Reconcile (.found pod) inp = { requeueAfter := some fiveSecondsNs } := by
  have hready : areContainersReady pod = false := by
    simp [areContainersReady, hEmpty]
  refine ⟨hready, ?_⟩
  simp [Reconcile, hGate, hNotTrue, hPhase, hready]

def podNoStatusesEx : Pod :=
  mkPod ("p") ("d") none [{ name := "app", ports := [{ containerPort := 8080 }] }]
    [ReadinessGateName] ("Running") ("10.0.0.1") [] []

theorem empty_container_statuses_requeue_witness :
    areContainersReady podNoStatusesEx = false ∧
      Reconcile (.found podNoStatusesEx) stepInputEx = { requeueAfter := some fiveSecondsNs } :=
  empty_container_statuses_requeue podNoStatusesEx stepInputEx
    (by decide) (by decide) (by decide) (by decide)

/-! ## Claim C1 -/

/-- C1: every reconciliation attempt that reaches the warmup step attempts
exactly one status write whose payload carries the warmup condition True,
whatever config resolution and the probe run produced; the only error
Reconcile returns from this point is the status-write failure, and there
is no requeue. -/
theorem fail_open_propagation (pod : Pod) (inp : StepInput)
    (hGate : hasReadinessGate pod = true)
    (hNotTrue : isConditionTrue pod ConditionTypeWarmupReady = false)
    (hPhase : pod.status.phase = "Running")
    (hReady : areContainersReady pod = true)
    (hCR : isConditionTrue pod ContainersReadyType = true) :
    (Reconcile (.found pod) inp).writes.length = 1 ∧
      (∀ w ∈ (Reconcile (.found pod) inp).writes,
        isConditionTrue w ConditionTypeWarmupReady = true) ∧
      (Reconcile (.found pod) inp).err = (if inp.writeOk then none else some inp.writeErr) ∧
      (Reconcile (.found pod) inp).requeueAfter = none := by
  rcases hpc : ParseConfig (some pod) with ⟨c, e⟩
  cases e with
  | some msg =>
    simp [Reconcile, hGate, hNotTrue, hPhase, hReady, hCR, hpc,
      isConditionTrue_setConditionTrue]
  | none =>
    cases hex : inp.executor with
    | some ex =>
      simp [Reconcile, hGate, hNotTrue, hPhase, hReady, hCR, hpc, hex,
        isConditionTrue_setConditionTrue]
    | none =>
      simp [Reconcile, hGate, hNotTrue, hPhase, hReady, hCR, hpc, hex,
        isConditionTrue_setConditionTrue]

def podReadyEx : Pod :=
  mkPod ("p") ("d") none [{ name := "app", ports := [{ containerPort := 8080 }] }]
    [ReadinessGateName] ("Running") ("10.0.0.1")
    [condEntry ContainersReadyType ("True") 0 ("") ("")]
    [{ name := "app", ready := true }]

theorem fail_open_propagation_witness :
    (Reconcile (.found podReadyEx) stepInputEx).writes.length = 1 ∧
      (∀ w ∈ (Reconcile (.found podReadyEx) stepInputEx).writes,
        isConditionTrue w ConditionTypeWarmupReady = true) ∧
      (Reconcile (.found podReadyEx) stepInputEx).err
        = (if stepInputEx.writeOk then none else some stepInputEx.writeErr) ∧
      (Reconcile (.found podReadyEx) stepInputEx).requeueAfter = none :=
  fail_open_propagation podReadyEx stepInputEx
    (by decide) (by decide) (by decide) (by decide) (by decide)

/-! ## Claim C3 -/

def podMultiContEx : Pod :=
  mkPod ("p") ("d") none
    [{ name := "a", ports := [] }, { name := "b", ports := [] }]
    [ReadinessGateName] ("Running") ("10.0.0.1")
    [condEntry ContainersReadyType ("True") 0 ("") ("")]
    [{ name := "a", ready := true }, { name := "b", ready := true }]

/-- C3 counterexample: on a reconciliation whose config resolution fails
(two containers, no port annotation), the condition actually recorded has
reason "WarmupFailedOpen" — there is no "ConfigError" reason in the code —
and its message is the wrapped fail-open text, not the bare
"warmup config error: {detail}". -/
theorem config_error_reason_counterexample :
    ((Reconcile (.found podMultiContEx) stepInputEx).writes.map
        (fun w => w.status.conditions.find? (fun c => c.type == ConditionTypeWarmupReady)))
      = [some (condEntry ConditionTypeWarmupReady ("True") 5 ("WarmupFailedOpen")
          ("Warmup failed but pod marked ready (fail-open): warmup config error: pod has multiple containers, please specify warmup port using annotation kube-booster.io/warmup-port"))] ∧
      ("WarmupFailedOpen" ≠ "ConfigError") ∧
      ("Warmup failed but pod marked ready (fail-open): warmup config error: pod has multiple containers, please specify warmup port using annotation kube-booster.io/warmup-port"
        ≠ "warmup config error: pod has multiple containers, please specify warmup port using annotation kube-booster.io/warmup-port") := by
  refine ⟨?_, by decide, by decide⟩
  rfl

/-- C3 amended: when config resolution fails, the controller still sets
the condition True, recording it with reason "WarmupFailedOpen" and
message "Warmup failed but pod marked ready (fail-open): " followed by
"warmup config error: {detail}". -/
theorem config_error_fail_open_amended (pod : Pod) (inp : StepInput) (c : Config) (e : String)
    (hGate : hasReadinessGate pod = true)
    (hNotTrue : isConditionTrue pod ConditionTypeWarmupReady = false)
    (hPhase : pod.status.phase = "Running")
    (hReady : areContainersReady pod = true)
    (hCR : isConditionTrue pod ContainersReadyType = true)
    (hpc : ParseConfig (some pod) = (c, some e)) :
    (Reconcile (.found pod) inp).writes.length = 1 ∧
      ∀ w ∈ (Reconcile (.found pod) inp).writes,
        w.status.conditions.find? (fun cond => cond.type == ConditionTypeWarmupReady)
          = some { type := ConditionTypeWarmupReady, status := "True",
                   lastTransitionTime := inp.now, reason := "WarmupFailedOpen",
                   message := "Warmup failed but pod marked ready (fail-open): "
                     ++ ("warmup config error: " ++ e) } := by
  simp [Reconcile, hGate, hNotTrue, hPhase, hReady, hCR, hpc, setConditionTrue,
    conditionReasonMessage, upsertCondition_find]

theorem config_error_fail_open_amended_witness :
    (Reconcile (.found podMultiContEx) stepInputEx).writes.length = 1 ∧
      ∀ w ∈ (Reconcile (.found podMultiContEx) stepInputEx).writes,
        w.status.conditions.find? (fun cond => cond.type == ConditionTypeWarmupReady)
          = some { type := ConditionTypeWarmupReady, status := "True",
                   lastTransitionTime := stepInputEx.now, reason := "WarmupFailedOpen",
                   message := "Warmup failed but pod marked ready (fail-open): "
                     ++ ("warmup config error: " ++ multipleContainersMsg) } :=
  config_error_fail_open_amended podMultiContEx stepInputEx
    { endpoint := "/", requestCount := 3, duration := 30000000000 } multipleContainersMsg
    (by decide) (by decide) (by decide) (by decide) (by decide) (by decide)


/-! ## Claim C4 -/

/-- C4: the reason/message mapping of the condition write (the spec's
tokens Complete / FailedOpen are the strings "WarmupComplete" /
"WarmupFailedOpen"): no executor configured gives reason WarmupComplete
and message "warmup skipped: no executor configured"; an engine run with
Success=true gives reason WarmupComplete and the engine's message; an
engine run with Success=false gives reason WarmupFailedOpen and the
wrapped fail-open message. -/
theorem result_reporter_mapping (pod : Pod) (inp : StepInput) (c cfg2 : Config)
    (hGate : hasReadinessGate pod = true)
    (hNotTrue : isConditionTrue pod ConditionTypeWarmupReady = false)
    (hPhase : pod.status.phase = "Running")
    (hReady : areContainersReady pod = true)
    (hCR : isConditionTrue pod ContainersReadyType = true)
    (hpc : ParseConfig (some pod) = (c, none))
    (hcfg2 : cfg2 = { c with podIP := pod.status.podIP, podName := pod.name,
                             podNamespace := pod.nspace }) :
    (inp.executor = none →
      (Reconcile (.found pod) inp).writes.map
          (fun w => w.status.conditions.find? (fun cond => cond.type == ConditionTypeWarmupReady))
        = [some { type := ConditionTypeWarmupReady, status := "True",
                  lastTransitionTime := inp.now, reason := "WarmupComplete",
                  message := "warmup skipped: no executor configured" }]) ∧
      (∀ ex, inp.executor = some ex → (ex cfg2).success = true →
        (Reconcile (.found pod) inp).writes.map
            (fun w => w.status.conditions.find? (fun cond => cond.type == ConditionTypeWarmupReady))
          = [some { type := ConditionTypeWarmupReady, status := "True",
                    lastTransitionTime := inp.now, reason := "WarmupComplete",
                    message := (ex cfg2).message }]) ∧
      (∀ ex, inp.executor = some ex → (ex cfg2).success = false →
        (Reconcile (.found pod) inp).writes.map
            (fun w => w.status.conditions.find? (fun cond => cond.type == ConditionTypeWarmupReady))
          = [some { type := ConditionTypeWarmupReady, status := "True",
                    lastTransitionTime := inp.now, reason := "WarmupFailedOpen",
                    message := "Warmup failed but pod marked ready (fail-open): "
                      ++ (ex cfg2).message }]) := by
  subst hcfg2
  refine ⟨?_, ?_, ?_⟩
  · intro hex
    simp [Reconcile, hGate, hNotTrue, hPhase, hReady, hCR, hpc, hex, setConditionTrue,
      conditionReasonMessage, upsertCondition_find]
  · intro ex hex hsucc
    simp [Reconcile, hGate, hNotTrue, hPhase, hReady, hCR, hpc, hex, setConditionTrue,
      conditionReasonMessage, hsucc, upsertCondition_find]
  · intro ex hex hsucc
    simp [Reconcile, hGate, hNotTrue, hPhase, hReady, hCR, hpc, hex, setConditionTrue,
      conditionReasonMessage, hsucc, upsertCondition_find]

def cfgReadyEx : Config := { port := 8080 }

def cfgReadyFullEx : Config := { port := 8080, podIP := "10.0.0.1", podName := "p", podNamespace := "d" }

theorem result_reporter_mapping_witness :
    (Reconcile (.found podReadyEx) stepInputEx).writes.map
        (fun w => w.status.conditions.find? (fun cond => cond.type == ConditionTypeWarmupReady))
      = [some { type := ConditionTypeWarmupReady, status := "True",
                lastTransitionTime := stepInputEx.now, reason := "WarmupComplete",
                message := "warmup skipped: no executor configured" }] :=
  (result_reporter_mapping podReadyEx stepInputEx cfgReadyEx cfgReadyFullEx
    (by decide) (by decide) (by decide) (by decide) (by decide) (by decide) (by decide)).1 rfl

/-! ## Claim C2 -/

theorem vegetaSuccessFrac_pos (codes : List Nat) :
    0 < vegetaSuccessFrac codes ↔ codes.any isVegetaSuccess = true := by
  constructor
  · intro hpos
    by_contra hany
    have h0 : codes.countP isVegetaSuccess = 0 :=
      List.countP_eq_zero.mpr (by simpa [List.any_eq_true] using hany)
    rw [vegetaSuccessFrac, h0] at hpos
    simp at hpos
  · intro hany
    have hcnt : 0 < codes.countP isVegetaSuccess :=
      List.countP_pos_iff.mpr (by simpa [List.any_eq_true] using hany)
    have hlen : 0 < codes.length := lt_of_lt_of_le hcnt (List.countP_le_length _)
    rw [vegetaSuccessFrac]
    exact div_pos (by exact_mod_cast hcnt) (by exact_mod_cast hlen)

/-- C2: Execute's Success is true iff the run completed (pod IP set, not
cancelled) with at least one successful request; a missing pod IP yields
zero requests issued, and a cancelled run is never a success. -/
theorem execute_success_iff (cfg : Config) (run : RunOutcome) :
    ((ExecuteModel cfg run).success = true ↔
      (cfg.podIP ≠ "" ∧ ∃ codes p50 p99 dur, run = .completed codes p50 p99 dur ∧
        codes.any isVegetaSuccess = true)) ∧
      (cfg.podIP = "" → (ExecuteModel cfg run).requestsCompleted = 0 ∧
        (ExecuteModel cfg run).requestsFailed = 0) ∧
      (∀ cause, run = .cancelled cause → (ExecuteModel cfg run).success = false) := by
  by_cases hip : cfg.podIP = ""
  · refine ⟨?_, ?_, ?_⟩
    · simp [ExecuteModel, hip]
    · intro h
      simp [ExecuteModel, hip]
    · intro cause h
      simp [ExecuteModel, hip]
  · refine ⟨?_, by intro h; exact absurd h hip, ?_⟩
    · cases run with
      | cancelled cause => simp [ExecuteModel, hip]
      | completed codes p50 p99 dur =>
        simp [ExecuteModel, hip, vegetaSuccessFrac_pos]
    · intro cause h
      subst h
      simp [ExecuteModel, hip]

theorem execute_success_iff_witness :
    (ExecuteModel { podIP := "10.0.0.1" } (.completed [200] 0 0 0)).success = true :=
  (execute_success_iff { podIP := "10.0.0.1" } (.completed [200] 0 0 0)).1.mpr
    (by refine ⟨by decide, [200], 0, 0, 0, rfl, by decide⟩)


/-! ## Claim C7 -/

def resultErrZeroEx : Result := { error := some ("boom") }

def resultFailuresEx : Result :=
  { success := false, requestsCompleted := 1, requestsFailed := 1,
    latencyP50 := 1000000, latencyP99 := 2000000 }

/-- C7 counterexample: BuildMessage checks Error before the zero-request
case — a result with zero requests issued and a non-nil Error yields
"warmup failed: {error}", not "warmup skipped: no requests executed" —
and the Success=false message carries no P50/P99 suffix. -/
theorem build_message_counterexample :
    BuildMessage resultErrZeroEx = "warmup failed: boom" ∧
      resultErrZeroEx.requestsCompleted = 0 ∧
      resultErrZeroEx.requestsFailed = 0 ∧
      ("warmup failed: boom" ≠ "warmup skipped: no requests executed") ∧
      BuildMessage resultFailuresEx
        = "warmup completed with failures: 1/2 requests succeeded (50.0%)" ∧
      ("warmup completed with failures: 1/2 requests succeeded (50.0%)"
        ≠ "warmup completed with failures: 1/2 requests succeeded (50.0%), P50=1ms, P99=2ms") := by
  refine ⟨by decide, rfl, rfl, by decide, by decide, by decide⟩

/-- C7 amended: message synthesis is the deterministic case split with the
Error check first: a non-nil Error yields "warmup failed: {error}";
otherwise zero requests issued yields "warmup skipped: no requests
executed"; otherwise Success=true yields the completed message with
success count, rate and P50/P99 percentiles, and Success=false yields the
"with failures" message with count and rate but no percentile suffix. -/
theorem build_message_cases (r : Result) :
    (∀ e, r.error = some e → BuildMessage r = "warmup failed: " ++ e) ∧
      (r.error = none → r.requestsCompleted = 0 → r.requestsFailed = 0 →
        BuildMessage r = "warmup skipped: no requests executed") ∧
      (r.error = none → ¬ (r.requestsCompleted = 0 ∧ r.requestsFailed = 0) →
        r.success = true →
        BuildMessage r = "warmup completed: " ++ toString r.requestsCompleted ++ "/"
          ++ toString (r.requestsCompleted + r.requestsFailed) ++ " requests succeeded ("
          ++ formatRate1 r.requestsCompleted (r.requestsCompleted + r.requestsFailed)
          ++ "%), P50=" ++ formatGoDuration r.latencyP50
          ++ ", P99=" ++ formatGoDuration r.latencyP99) ∧
      (r.error = none → ¬ (r.requestsCompleted = 0 ∧ r.requestsFailed = 0) →
        r.success = false →
        BuildMessage r = "warmup completed with failures: " ++ toString r.requestsCompleted
          ++ "/" ++ toString (r.requestsCompleted + r.requestsFailed)
          ++ " requests succeeded ("
          ++ formatRate1 r.requestsCompleted (r.requestsCompleted + r.requestsFailed)
          ++ "%)") := by
  refine ⟨?_, ?_, ?_, ?_⟩
  · intro e he
    simp [BuildMessage, he]
  · intro he h0 h1
    simp [BuildMessage, he, h0, h1]
  · intro he hz hs
    simp [BuildMessage, he, hz, hs]
  · intro he hz hs
    simp [BuildMessage, he, hz, hs]

def resultSuccessEx : Result :=
  { success := true, requestsCompleted := 3, requestsFailed := 0,
    latencyP50 := 12000000, latencyP99 := 15000000 }

theorem build_message_cases_witness :
    BuildMessage resultSuccessEx
      = "warmup completed: " ++ toString resultSuccessEx.requestsCompleted ++ "/"
        ++ toString (resultSuccessEx.requestsCompleted + resultSuccessEx.requestsFailed)
        ++ " requests succeeded ("
        ++ formatRate1 resultSuccessEx.requestsCompleted
            (resultSuccessEx.requestsCompleted + resultSuccessEx.requestsFailed)
        ++ "%), P50=" ++ formatGoDuration resultSuccessEx.latencyP50
        ++ ", P99=" ++ formatGoDuration resultSuccessEx.latencyP99 :=
  (build_message_cases resultSuccessEx).2.2.1 rfl (by decide) rfl

/-! ## ParseConfig analysis helpers (claims C5, C6) -/

/-- The warmup-requests override is absent, empty, or parses to a count
the code accepts. -/
def requestsAnnOkB (pod : Pod) : Bool :=
  match lookupAnn pod AnnotationWarmupRequests with
  | none => true
  | some s => s == "" || (match goAtoi s with
    | .ok n => decide (1 ≤ n)
    | .error _ => false)

/-- The warmup-duration override is absent, empty, or parses to a duration
the code accepts. -/
def durationAnnOkB (pod : Pod) : Bool :=
  match lookupAnn pod AnnotationWarmupDuration with
  | none => true
  | some s => s == "" || (match goParseDuration s with
    | .ok d => decide (1000000000 ≤ d)
    | .error _ => false)

/-- The warmup-port override is absent, empty, or parses into [1,65535]. -/
def portAnnOkB (pod : Pod) : Bool :=
  match lookupAnn pod AnnotationWarmupPort with
  | none => true
  | some s => s == "" || (match goAtoi s with
    | .ok n => decide (1 ≤ n ∧ n ≤ 65535)
    | .error _ => false)

/-- The warmup-port override is absent or empty (the auto-detect path). -/
def portAnnAbsentB (pod : Pod) : Bool :=
  match lookupAnn pod AnnotationWarmupPort with
  | none => true
  | some s => s == ""

theorem applyEndpointAnn_fields (pod : Pod) (c : Config) :
    (applyEndpointAnn pod c).requestCount = c.requestCount ∧
      (applyEndpointAnn pod c).duration = c.duration ∧
      (applyEndpointAnn pod c).port = c.port := by
  unfold applyEndpointAnn
  cases lookupAnn pod AnnotationWarmupEndpoint with
  | none => exact ⟨rfl, rfl, rfl⟩
  | some s =>
    by_cases hs : s = "" <;> simp [hs]

theorem parseRequestsAnn_ok (pod : Pod) (c : Config)
    (h : requestsAnnOkB pod = true) (hc : 1 ≤ c.requestCount) :
    ∃ c2, parseRequestsAnn pod c = (c2, none) ∧ 1 ≤ c2.requestCount ∧
      c2.duration = c.duration ∧ c2.port = c.port := by
  unfold requestsAnnOkB at h
  unfold parseRequestsAnn
  cases hl : lookupAnn pod AnnotationWarmupRequests with
  | none => exact ⟨c, rfl, hc, rfl, rfl⟩
  | some s =>
    rw [hl] at h
    by_cases hs : s = ""
    · subst hs
      exact ⟨c, by simp, hc, rfl, rfl⟩
    · have h2 : (match goAtoi s with
          | .ok n => decide (1 ≤ n)
          | .error _ => false) = true := by simpa [hs] using h
      cases ha : goAtoi s with
      | error e => rw [ha] at h2; simp at h2
      | ok n =>
        rw [ha] at h2
        simp at h2
        refine ⟨{ c with requestCount := n }, ?_, h2, rfl, rfl⟩
        have hnl : ¬ n < 1 := by omega
        simp [hs, ha, hnl]

theorem parseDurationAnn_ok (pod : Pod) (c : Config)
    (h : durationAnnOkB pod = true) (hc : 1000000000 ≤ c.duration) :
    ∃ c2, parseDurationAnn pod c = (c2, none) ∧ 1000000000 ≤ c2.duration ∧
      c2.requestCount = c.requestCount ∧ c2.port = c.port := by
  unfold durationAnnOkB at h
  unfold parseDurationAnn
  cases hl : lookupAnn pod AnnotationWarmupDuration with
  | none => exact ⟨c, rfl, hc, rfl, rfl⟩
  | some s =>
    rw [hl] at h
    by_cases hs : s = ""
    · subst hs
      exact ⟨c, by simp, hc, rfl, rfl⟩
    · have h2 : (match goParseDuration s with
          | .ok d => decide (1000000000 ≤ d)
          | .error _ => false) = true := by simpa [hs] using h
      cases ha : goParseDuration s with
      | error e => rw [ha] at h2; simp at h2
      | ok d =>
        rw [ha] at h2
        simp at h2
        refine ⟨{ c with duration := d }, ?_, h2, rfl, rfl⟩
        have hdl : ¬ d < 1000000000 := by omega
        simp [hs, ha, hdl]

/-- After the endpoint/requests/duration annotation steps succeed,
ParseConfig is exactly the port-resolution stage applied to a config whose
count and duration already satisfy the invariants. -/
theorem parseConfig_port_stage (pod : Pod)
    (hr : requestsAnnOkB pod = true) (hd : durationAnnOkB pod = true) :
    ∃ c2, 1 ≤ c2.requestCount ∧ 1000000000 ≤ c2.duration ∧
      ParseConfig (some pod)
        = (match lookupAnn pod AnnotationWarmupPort with
           | some s => if s ≠ "" then parsePortAnn c2 s else autoDetectPort pod c2
           | none => autoDetectPort pod c2) := by
  obtain ⟨he1, he2, he3⟩ := applyEndpointAnn_fields pod {}
  obtain ⟨c1, h1, hreq1, hdur1, hport1⟩ :=
    parseRequestsAnn_ok pod (applyEndpointAnn pod {}) hr (by rw [he1]; decide)
  obtain ⟨c2, h2, hdur2, hreq2, hport2⟩ :=
    parseDurationAnn_ok pod c1 hd (by rw [hdur1, he2]; decide)
  refine ⟨c2, by omega, hdur2, ?_⟩
  simp only [ParseConfig, cfgBind, h1, h2]

theorem parseRequestsAnn_err (pod : Pod) (c : Config) (h : requestsAnnOkB pod = false) :
    ∃ e, parseRequestsAnn pod c = (c, some e) := by
  unfold requestsAnnOkB at h
  unfold parseRequestsAnn
  cases hl : lookupAnn pod AnnotationWarmupRequests with
  | none => rw [hl] at h; simp at h
  | some s =>
    rw [hl] at h
    by_cases hs : s = ""
    · subst hs; simp at h
    · have h2 : (match goAtoi s with
          | .ok n => decide (1 ≤ n)
          | .error _ => false) = false := by simpa [hs] using h
      cases ha : goAtoi s with
      | error e =>
        refine ⟨"invalid warmup-requests value " ++ goQuote s ++ ": " ++ e, ?_⟩
        simp [hs, ha]
      | ok n =>
        rw [ha] at h2
        simp at h2
        refine ⟨"warmup-requests must be at least 1, got " ++ toString n, ?_⟩
        simp [hs, ha, h2]

theorem parseDurationAnn_err (pod : Pod) (c : Config) (h : durationAnnOkB pod = false) :
    ∃ e, parseDurationAnn pod c = (c, some e) := by
  unfold durationAnnOkB at h
  unfold parseDurationAnn
  cases hl : lookupAnn pod AnnotationWarmupDuration with
  | none => rw [hl] at h; simp at h
  | some s =>
    rw [hl] at h
    by_cases hs : s = ""
    · subst hs; simp at h
    · have h2 : (match goParseDuration s with
          | .ok d => decide (1000000000 ≤ d)
          | .error _ => false) = false := by simpa [hs] using h
      cases ha : goParseDuration s with
      | error e =>
        refine ⟨"invalid warmup-duration value " ++ goQuote s ++ ": " ++ e, ?_⟩
        simp [hs, ha]
      | ok d =>
        rw [ha] at h2
        simp at h2
        refine ⟨"warmup-duration must be at least 1s, got " ++ formatGoDuration d, ?_⟩
        simp [hs, ha, h2]

theorem parseConfig_err_requests (pod : Pod) (h : requestsAnnOkB pod = false) :
    (ParseConfig (some pod)).2.isSome = true := by
  obtain ⟨e, he⟩ := parseRequestsAnn_err pod (applyEndpointAnn pod {}) h
  simp [ParseConfig, cfgBind, he]

theorem parseConfig_err_duration (pod : Pod) (h : durationAnnOkB pod = false) :
    (ParseConfig (some pod)).2.isSome = true := by
  cases hr : requestsAnnOkB pod with
  | false => exact parseConfig_err_requests pod hr
  | true =>
    obtain ⟨he1, he2, he3⟩ := applyEndpointAnn_fields pod {}
    obtain ⟨c1, h1, hreq1, hdur1, hport1⟩ :=
      parseRequestsAnn_ok pod (applyEndpointAnn pod {}) hr (by rw [he1]; decide)
    obtain ⟨e, he⟩ := parseDurationAnn_err pod c1 h
    simp [ParseConfig, cfgBind, h1, he]

theorem parsePortAnn_ok_inv (c2 : Config) (s : String) (c : Config)
    (h : parsePortAnn c2 s = (c, none)) :
    ∃ n, goAtoi s = .ok n ∧ 1 ≤ n ∧ n ≤ 65535 ∧ c = { c2 with port := n } := by
  unfold parsePortAnn at h
  cases ha : goAtoi s with
  | error e => rw [ha] at h; simp at h
  | ok n =>
    rw [ha] at h
    have h3 : (if n < 1 ∨ n > 65535 then
        (c2, some ("warmup-port must be between 1 and 65535, got " ++ toString n))
      else ({ c2 with port := n }, none)) = (c, none) := h
    by_cases hb : n < 1 ∨ n > 65535
    · simp [hb] at h3
    · push_neg at hb
      have hb2 : ¬ (n < 1 ∨ n > 65535) := by omega
      rw [if_neg hb2] at h3
      have hfst := congrArg Prod.fst h3
      exact ⟨n, rfl, hb.1, hb.2, hfst.symm⟩

theorem autoDetectPort_ok_inv (pod : Pod) (c2 c : Config)
    (h : autoDetectPort pod c2 = (c, none)) :
    ∃ ct p, pod.spec.containers = [ct] ∧ ct.ports = [p] ∧
      c = { c2 with port := p.containerPort } := by
  unfold autoDetectPort at h
  cases hcont : pod.spec.containers with
  | nil => rw [hcont] at h; simp at h
  | cons ct rest =>
    cases rest with
    | nil =>
      rw [hcont] at h
      have h3 : (match ct.ports with
        | [p] => ({ c2 with port := p.containerPort }, none)
        | [] => (c2, some noPortsFoundMsg)
        | _ => (c2, some (multiplePortsMsg ct.name))) = (c, none) := h
      cases hp : ct.ports with
      | nil => rw [hp] at h3; simp at h3
      | cons p tail =>
        cases tail with
        | nil =>
          rw [hp] at h3
          simp [Prod.ext_iff] at h3
          exact ⟨ct, p, rfl, hp, h3.symm⟩
        | cons q tail2 => rw [hp] at h3; simp at h3
    | cons ct2 rest2 => rw [hcont] at h; simp at h

theorem parseConfig_err_port (pod : Pod) (h : portAnnOkB pod = false) :
    (ParseConfig (some pod)).2.isSome = true := by
  cases hr : requestsAnnOkB pod with
  | false => exact parseConfig_err_requests pod hr
  | true =>
    cases hd : durationAnnOkB pod with
    | false => exact parseConfig_err_duration pod hd
    | true =>
      obtain ⟨c2, hc2a, hc2b, hps⟩ := parseConfig_port_stage pod hr hd
      rw [hps]
      unfold portAnnOkB at h
      cases hl : lookupAnn pod AnnotationWarmupPort with
      | none => rw [hl] at h; simp at h
      | some s =>
        rw [hl] at h
        by_cases hs : s = ""
        · subst hs; simp at h
        · have h2 : (match goAtoi s with
              | .ok n => decide (1 ≤ n ∧ n ≤ 65535)
              | .error _ => false) = false := by simpa [hs] using h
          cases ha : goAtoi s with
          | error e => simp [hl, hs, parsePortAnn, ha]
          | ok n =>
            rw [ha] at h2
            simp at h2
            have hb : n < 1 ∨ n > 65535 := by omega
            simp [hl, hs, parsePortAnn, ha, hb]

/-! ## Claim C6 -/

def podZeroPortEx : Pod :=
  mkPod ("p") ("d") none [{ name := "app", ports := [{ containerPort := 0 }] }]
    [ReadinessGateName] ("Running") ("10.0.0.1") [] []

/-- C6 counterexample: the auto-detected port is not range-checked — on a
pod whose single container declares ContainerPort 0, ParseConfig succeeds
and resolves Port = 0, outside [1,65535]. -/
theorem config_port_unchecked_counterexample :
    (ParseConfig (some podZeroPortEx)).2 = none ∧
      (ParseConfig (some podZeroPortEx)).1.port = 0 := by
  refine ⟨by decide, by decide⟩

/-- C6 amended: every successful resolution satisfies RequestCount ≥ 1 and
Duration ≥ 1s, and Port ∈ [1,65535] holds provided every declared
container port is itself in range (the override path checks the range, the
auto-detect path copies the declared port unchecked); a present-but-bad
override (non-numeric or <1 count, unparsable or <1s duration, non-numeric
or out-of-range port) always makes ParseConfig return a validation error
instead of falling back to the default. -/
theorem config_invariants_amended (pod : Pod) (c : Config) :
    (ParseConfig (some pod) = (c, none) →
      1 ≤ c.requestCount ∧ 1000000000 ≤ c.duration ∧
        ((∀ ct ∈ pod.spec.containers, ∀ p ∈ ct.ports,
            1 ≤ p.containerPort ∧ p.containerPort ≤ 65535) →
          1 ≤ c.port ∧ c.port ≤ 65535)) ∧
      (requestsAnnOkB pod = false → (ParseConfig (some pod)).2.isSome = true) ∧
      (durationAnnOkB pod = false → (ParseConfig (some pod)).2.isSome = true) ∧
      (portAnnOkB pod = false → (ParseConfig (some pod)).2.isSome = true) := by
  refine ⟨?_, parseConfig_err_requests pod, parseConfig_err_duration pod,
    parseConfig_err_port pod⟩
  intro h
  have hr : requestsAnnOkB pod = true := by
    cases hq : requestsAnnOkB pod with
    | true => rfl
    | false =>
      have hx := parseConfig_err_requests pod hq
      rw [h] at hx
      simp at hx
  have hd : durationAnnOkB pod = true := by
    cases hq : durationAnnOkB pod with
    | true => rfl
    | false =>
      have hx := parseConfig_err_duration pod hq
      rw [h] at hx
      simp at hx
  obtain ⟨c2, hc2r, hc2d, hps⟩ := parseConfig_port_stage pod hr hd
  rw [hps] at h
  cases hl : lookupAnn pod AnnotationWarmupPort with
  | none =>
    rw [hl] at h
    have h3 : autoDetectPort pod c2 = (c, none) := h
    obtain ⟨ct, p, hcont, hp, hceq⟩ := autoDetectPort_ok_inv pod c2 c h3
    subst hceq
    refine ⟨hc2r, hc2d, ?_⟩
    intro hall
    have hm := hall ct (by rw [hcont]; simp) p (by rw [hp]; simp)
    simpa using hm
  | some s =>
    rw [hl] at h
    by_cases hs : s = ""
    · subst hs
      have h3 : autoDetectPort pod c2 = (c, none) := by simpa using h
      obtain ⟨ct, p, hcont, hp, hceq⟩ := autoDetectPort_ok_inv pod c2 c h3
      subst hceq
      refine ⟨hc2r, hc2d, ?_⟩
      intro hall
      have hm := hall ct (by rw [hcont]; simp) p (by rw [hp]; simp)
      simpa using hm
    · have h4 : (if s ≠ "" then parsePortAnn c2 s else autoDetectPort pod c2) = (c, none) := h
      rw [if_pos hs] at h4
      obtain ⟨n, ha, hn1, hn2, hceq⟩ := parsePortAnn_ok_inv c2 s c h4
      subst hceq
      exact ⟨hc2r, hc2d, fun _ => ⟨hn1, hn2⟩⟩

theorem config_invariants_amended_witness :
    1 ≤ cfgReadyEx.requestCount ∧ 1000000000 ≤ cfgReadyEx.duration ∧
      (1 ≤ cfgReadyEx.port ∧ cfgReadyEx.port ≤ 65535) :=
  let h := (config_invariants_amended podReadyEx cfgReadyEx).1 (by decide)
  ⟨h.1, h.2.1, h.2.2 (by decide)⟩

/-! ## Claim C5 -/

/-- C5: port resolution.  A present non-empty override is parsed and
range-checked and wins regardless of declared container ports; with the
override absent (or empty), auto-detection succeeds exactly when there is
one container with one declared port; otherwise ParseConfig fails with a
message distinguishing multiple containers / multiple ports on the one
container / no ports, each naming the override annotation.  (The earlier
requests/duration overrides are assumed well-formed — a bad one aborts
ParseConfig before port resolution.) -/
theorem port_resolution_algorithm (pod : Pod)
    (hr : requestsAnnOkB pod = true) (hd : durationAnnOkB pod = true) :
    (∀ s n, lookupAnn pod AnnotationWarmupPort = some s → s ≠ "" → goAtoi s = .ok n →
      1 ≤ n → n ≤ 65535 →
      (ParseConfig (some pod)).2 = none ∧ (ParseConfig (some pod)).1.port = n) ∧
      (∀ s e, lookupAnn pod AnnotationWarmupPort = some s → s ≠ "" → goAtoi s = .error e →
        (ParseConfig (some pod)).2
          = some ("invalid warmup-port value " ++ goQuote s ++ ": " ++ e)) ∧
      (∀ s n, lookupAnn pod AnnotationWarmupPort = some s → s ≠ "" → goAtoi s = .ok n →
        (n < 1 ∨ n > 65535) →
        (ParseConfig (some pod)).2
          = some ("warmup-port must be between 1 and 65535, got " ++ toString n)) ∧
      (portAnnAbsentB pod = true →
        (∀ ct p, pod.spec.containers = [ct] → ct.ports = [p] →
          (ParseConfig (some pod)).2 = none ∧
            (ParseConfig (some pod)).1.port = p.containerPort) ∧
          (∀ ct q1 q2 qs, pod.spec.containers = [ct] → ct.ports = q1 :: q2 :: qs →
            (ParseConfig (some pod)).2 = some (multiplePortsMsg ct.name)) ∧
          (∀ ct1 ct2 cts, pod.spec.containers = ct1 :: ct2 :: cts →
            (ParseConfig (some pod)).2 = some multipleContainersMsg) ∧
          ((pod.spec.containers = [] ∨ ∃ ct, pod.spec.containers = [ct] ∧ ct.ports = []) →
            (ParseConfig (some pod)).2 = some noPortsFoundMsg)) := by
  obtain ⟨c2, hc2r, hc2d, hps⟩ := parseConfig_port_stage pod hr hd
  rw [hps]
  refine ⟨?_, ?_, ?_, ?_⟩
  · intro s n hl hs ha h1 h2
    have hcond : ¬ (n < 1 ∨ n > 65535) := by omega
    simp [hl, hs, parsePortAnn, ha]
    rw [if_neg hcond]
    exact ⟨rfl, rfl⟩
  · intro s e hl hs ha
    simp [hl, hs, parsePortAnn, ha]
  · intro s n hl hs ha hb
    simp [hl, hs, parsePortAnn, ha, hb]
  · intro habs
    unfold portAnnAbsentB at habs
    refine ⟨?_, ?_, ?_, ?_⟩
    · intro ct p hcont hp
      cases hl : lookupAnn pod AnnotationWarmupPort with
      | none => simp [hl, autoDetectPort, hcont, hp]
      | some s =>
        rw [hl] at habs
        have hs : s = "" := by simpa using habs
        subst hs
        simp [hl, autoDetectPort, hcont, hp]
    · intro ct q1 q2 qs hcont hp
      cases hl : lookupAnn pod AnnotationWarmupPort with
      | none => simp [hl, autoDetectPort, hcont, hp]
      | some s =>
        rw [hl] at habs
        have hs : s = "" := by simpa using habs
        subst hs
        simp [hl, autoDetectPort, hcont, hp]
    · intro ct1 ct2 cts hcont
      cases hl : lookupAnn pod AnnotationWarmupPort with
      | none => simp [hl, autoDetectPort, hcont]
      | some s =>
        rw [hl] at habs
        have hs : s = "" := by simpa using habs
        subst hs
        simp [hl, autoDetectPort, hcont]
    · intro hshape
      cases hl : lookupAnn pod AnnotationWarmupPort with
      | none =>
        rcases hshape with hnil | ⟨ct, hcont, hp⟩
        · simp [hl, autoDetectPort, hnil]
        · simp [hl, autoDetectPort, hcont, hp]
      | some s =>
        rw [hl] at habs
        have hs : s = "" := by simpa using habs
        subst hs
        rcases hshape with hnil | ⟨ct, hcont, hp⟩
        · simp [hl, autoDetectPort, hnil]
        · simp [hl, autoDetectPort, hcont, hp]

def podPortAnnEx : Pod :=
  mkPod ("p") ("d") (some [(AnnotationWarmupPort, "9000")])
    [{ name := "app", ports := [{ containerPort := 8080 }] }]
    [ReadinessGateName] ("Running") ("10.0.0.1") [] []

theorem port_resolution_algorithm_witness :
    (ParseConfig (some podPortAnnEx)).2 = none ∧
      (ParseConfig (some podPortAnnEx)).1.port = 9000 :=
  (port_resolution_algorithm podPortAnnEx (by decide) (by decide)).1 ("9000") 9000
    rfl (by decide) rfl (by decide) (by decide)
